import Mathlib

/-!
Shallow embedding of the dyn_sized crate (src/lib.rs): the DynSized
metadata protocol for fat pointers.  Addresses are modelled as natural
numbers, a fat pointer to a slice or str as a (data, len) record, a
trait-object fat pointer as the two-word TraitObject record, and the
referenced bytes as a memory function on addresses.  Each category's
assemble and disassemble are translated directly from the source impls.
-/

/-- The null pointer, core ptr null in the source. -/
def nullAddr : Nat := 0

/-- A byte memory: contents of the address space, indexed by address. -/
def Mem : Type := Nat → Nat

/-- A fat pointer to a slice type, the two words of a Rust fat pointer
to a slice: data pointer and element count. -/
structure SlicePtr where
  data : Nat
  len : Nat
deriving DecidableEq, Repr

/-- A fat pointer to str: data pointer and byte length. -/
structure StrPtr where
  data : Nat
  len : Nat
deriving DecidableEq, Repr

namespace Slice

/-- Source lib.rs lines 96-100: assemble for slices builds the fat
pointer from the raw parts, slice from raw parts of (data, len). -/
def assemble (len : Nat) (data : Nat) : SlicePtr := ⟨data, len⟩

/-- Source lib.rs lines 102-105: disassemble returns (len, data ptr)
read from the fat pointer words. -/
def disassemble (p : SlicePtr) : Nat × Nat := (p.len, p.data)

/-- Source lib.rs lines 45-48: the meta reflector derived from
disassemble. -/
def meta (p : SlicePtr) : Nat := (disassemble p).1

/-- Source lib.rs lines 50-53: the data reflector derived from
disassemble. -/
def dataOf (p : SlicePtr) : Nat := (disassemble p).2

end Slice

namespace Str

/-- Rust str as bytes: reinterpret the str fat pointer as a byte-slice
fat pointer with the same data pointer and length. -/
def asBytes (p : StrPtr) : SlicePtr := ⟨p.data, p.len⟩

/-- Source lib.rs lines 121-125: assemble for str builds the byte slice
from raw parts (data, len) and casts it, unchecked, to a str pointer. -/
def assemble (len : Nat) (data : Nat) : StrPtr := ⟨data, len⟩

/-- Source lib.rs lines 127-131: disassemble for str delegates to slice
disassemble on the byte view of the string. -/
def disassemble (p : StrPtr) : Nat × Nat := Slice.disassemble (asBytes p)

/-- The meta reflector for str, derived from disassemble. -/
def meta (p : StrPtr) : Nat := (disassemble p).1

/-- The data reflector for str, derived from disassemble. -/
def dataOf (p : StrPtr) : Nat := (disassemble p).2

end Str

namespace WrapSized

/-- The metadata type of the uniform-size adapter: the unit type. -/
abbrev Meta : Type := Unit

/-- Source lib.rs lines 84-86: assemble for WrapSized casts the thin
data pointer to a WrapSized pointer, ignoring the unit metadata. -/
def assemble (_m : Meta) (data : Nat) : Nat := data

/-- Source lib.rs lines 88-90: disassemble for WrapSized returns the
unit metadata and the pointer cast back to a thin data pointer. -/
def disassemble (p : Nat) : Meta × Nat := ((), p)

/-- The meta reflector for WrapSized, derived from disassemble. -/
def meta (p : Nat) : Meta := (disassemble p).1

/-- The data reflector for WrapSized, derived from disassemble. -/
def dataOf (p : Nat) : Nat := (disassemble p).2

end WrapSized

/-- The core raw TraitObject record, repr(C): data word first, vtable
word second (source lib.rs line 146 wraps it). -/
structure RawTraitObject where
  data : Nat
  vtable : Nat
deriving DecidableEq, Repr

/-- Source lib.rs line 146: the crate's TraitObject newtype over the
core raw record. -/
structure TraitObject where
  raw : RawTraitObject
deriving DecidableEq, Repr

/-- Source lib.rs line 150: Vtable, a newtype over a raw pointer word. -/
structure Vtable where
  ptr : Nat
deriving DecidableEq, Repr

/-- Source lib.rs lines 153-158: construct builds the record with the
given data word and the vtable word. -/
def TraitObject.construct (v : Vtable) (data : Nat) : TraitObject :=
  ⟨⟨data, v.ptr⟩⟩

/-- Source lib.rs lines 160-162: the data accessor. -/
def TraitObject.dataOf (t : TraitObject) : Nat := t.raw.data

/-- Source lib.rs lines 164-166: the vtable accessor. -/
def TraitObject.vtableOf (t : TraitObject) : Vtable := ⟨t.raw.vtable⟩

/-- The machine words of the record in field order: data word first,
then the dispatch table word (core raw TraitObject is repr(C)). -/
def TraitObject.words (t : TraitObject) : List Nat := [t.raw.data, t.raw.vtable]

namespace DynTrait

/-- Source lib.rs lines 175-181 (the derive body): assemble for a
derived trait object builds a TraitObject from (vtable, data) and
transmutes it to the fat pointer, which is bit-identical. -/
def assemble (v : Vtable) (data : Nat) : TraitObject :=
  TraitObject.construct v data

/-- Source lib.rs lines 183-189: disassemble transmutes the fat pointer
to a TraitObject and returns (vtable, data). -/
def disassemble (t : TraitObject) : Vtable × Nat :=
  (t.vtableOf, t.dataOf)

/-- The meta reflector for a derived trait object. -/
def meta (t : TraitObject) : Vtable := (disassemble t).1

/-- The data reflector for a derived trait object. -/
def dataOf (t : TraitObject) : Nat := (disassemble t).2

end DynTrait

/-!
Memory-instrumented variants of every shipped assemble.  Each takes the
current memory as an extra argument and has the same body as the source
function, which constructs the result from the metadata and address bits
alone; no equation reads the memory.  These let the dereference-freedom
invariant be stated: the result is the same under any two memories.
-/

/-- Slice assemble with the memory in scope: slice from raw parts uses
only (data, len), never a load. -/
def sliceAssembleInMem (_mem : Mem) (len : Nat) (data : Nat) : SlicePtr :=
  ⟨data, len⟩

/-- Str assemble with the memory in scope: from raw parts then an
unchecked cast, no load. -/
def strAssembleInMem (_mem : Mem) (len : Nat) (data : Nat) : StrPtr :=
  ⟨data, len⟩

/-- WrapSized assemble with the memory in scope: a pointer cast, no
load. -/
def wrapAssembleInMem (_mem : Mem) (_m : WrapSized.Meta) (data : Nat) : Nat :=
  data

/-- Derived trait-object assemble with the memory in scope: record
construction plus transmute, no load. -/
def dynAssembleInMem (_mem : Mem) (v : Vtable) (data : Nat) : TraitObject :=
  TraitObject.construct v data

/-!
The derived size and alignment queries (source lib.rs lines 61-73).
Both are generic over any DynSized implementation: they take the
implementation's assemble plus the host primitive mem size_of_val or
mem align_of_val for the category, build a handle at the null address,
and apply the host primitive to it.
-/

/-- Source lib.rs lines 62-66: size_of_val for any DynSized type, given
its assemble and the host size primitive; assembles at null. -/
def size_of_val {M H : Type} (asm : M → Nat → H) (hostSize : H → Nat)
    (m : M) : Nat :=
  hostSize (asm m nullAddr)

/-- Source lib.rs lines 69-73: align_of_val for any DynSized type,
given its assemble and the host alignment primitive; assembles at
null. -/
def align_of_val {M H : Type} (asm : M → Nat → H) (hostAlign : H → Nat)
    (m : M) : Nat :=
  hostAlign (asm m nullAddr)

namespace Host

/-- Host mem size_of_val for a Sized referent of size sizeT: constant in
the pointer. -/
def sizeOfValWrap (sizeT : Nat) (_p : Nat) : Nat := sizeT

/-- Host mem align_of_val for a Sized referent of alignment alignT:
constant in the pointer. -/
def alignOfValWrap (alignT : Nat) (_p : Nat) : Nat := alignT

/-- Host mem size_of_val for a slice: element count times element
size. -/
def sizeOfValSlice (elemSize : Nat) (p : SlicePtr) : Nat := p.len * elemSize

/-- Host mem size_of_val for a trait object: reads the size entry of
the dispatch table, one word past its base, from the vtable memory. -/
def sizeOfValDyn (vmem : Nat → Nat) (t : TraitObject) : Nat :=
  vmem (t.raw.vtable + 1)

/-- Host mem align_of_val for a trait object: reads the alignment
entry of the dispatch table, two words past its base. -/
def alignOfValDyn (vmem : Nat → Nat) (t : TraitObject) : Nat :=
  vmem (t.raw.vtable + 2)

end Host

/-!
The pointer extension API (source lib.rs lines 250-298), generic over
any DynSized implementation, which is modelled as a record of the two
required methods plus the defaulted mutable variants.
-/

/-- A DynSized implementation: the metadata type M, the handle type H,
and the two required methods (source lib.rs lines 23-36). -/
structure DynSizedImpl (M H : Type) where
  assemble : M → Nat → H
  disassemble : H → M × Nat

/-- Source lib.rs lines 28-34: the defaulted assemble_mut transmutes
the result of assemble, identity on the bits. -/
def DynSizedImpl.assemble_mut {M H : Type} (i : DynSizedImpl M H)
    (m : M) (data : Nat) : H :=
  i.assemble m data

/-- Source lib.rs lines 38-43: the defaulted disassemble_mut calls
disassemble and transmutes the data pointer, identity on the bits. -/
def DynSizedImpl.disassemble_mut {M H : Type} (i : DynSizedImpl M H)
    (p : H) : M × Nat :=
  i.disassemble p

namespace ConstPtr

/-- Source lib.rs lines 268-271: meta on a const pointer forwards to
disassemble. -/
def meta {M H : Type} (i : DynSizedImpl M H) (p : H) : M :=
  (i.disassemble p).1

/-- Source lib.rs lines 273-276: data on a const pointer forwards to
disassemble. -/
def dataOf {M H : Type} (i : DynSizedImpl M H) (p : H) : Nat :=
  (i.disassemble p).2

end ConstPtr

namespace MutPtr

/-- Source lib.rs lines 282-284: meta on a mut pointer casts to const
and reuses the const meta. -/
def meta {M H : Type} (i : DynSizedImpl M H) (p : H) : M :=
  ConstPtr.meta i p

/-- Source lib.rs lines 286-289: data on a mut pointer forwards to
disassemble. -/
def dataOf {M H : Type} (i : DynSizedImpl M H) (p : H) : Nat :=
  (i.disassemble p).2

/-- Source lib.rs lines 294-297: data_mut forwards to
disassemble_mut. -/
def data_mut {M H : Type} (i : DynSizedImpl M H) (p : H) : Nat :=
  (i.disassemble_mut p).2

end MutPtr

/-!
Referent contents: how the host lays out slices and strings in memory,
used only to state the content-preservation claims.
-/

/-- Read element i of a slice of elements of size elemSize starting at
address addr: the word at addr plus i times elemSize. -/
def readElem (mem : Mem) (elemSize : Nat) (addr : Nat) (i : Nat) : Nat :=
  mem (addr + i * elemSize)

/-- Read element i through a slice fat pointer. -/
def sliceRead (mem : Mem) (elemSize : Nat) (p : SlicePtr) (i : Nat) : Nat :=
  readElem mem elemSize p.data i

/-- The n bytes stored at address a. -/
def loadBytes (mem : Mem) (a : Nat) (n : Nat) : List Nat :=
  (List.range n).map fun i => mem (a + i)

/-- The memory holds the byte list s starting at address a. -/
def storesBytes (mem : Mem) (a : Nat) (s : List Nat) : Prop :=
  ∀ i, i < s.length → mem (a + i) = s.getD i 0

instance (mem : Mem) (a : Nat) (s : List Nat) :
    Decidable (storesBytes mem a s) :=
  Nat.decidableBallLT s.length fun i _ => mem (a + i) = s.getD i 0

/-- The reference the host hands out for a str value of byte contents s
stored at address a: data pointer a and byte length of s. -/
def strRefAt (a : Nat) (s : List Nat) : StrPtr := ⟨a, s.length⟩

/-- The number of UTF-8 characters encoded by a byte list: the count of
bytes that are not continuation bytes (those in 128..191). -/
def utf8CharCount (s : List Nat) : Nat :=
  (s.filter fun b => decide (b < 128 ∨ 192 ≤ b)).length

/-- The bytes the memory holds match the byte list, loaded back. -/
theorem loadBytes_of_storesBytes (mem : Mem) (a : Nat) (s : List Nat)
    (h : storesBytes mem a s) : loadBytes mem a s.length = s := by
  apply List.ext_getElem
  · simp [loadBytes]
  · intro i h1 h2
    simp only [loadBytes, List.getElem_map, List.getElem_range]
    rw [h i h2, List.getD_eq_getElem s 0 h2]

/-- The round trip of a str fat pointer through disassemble and
assemble. -/
def strRoundTrip (p : StrPtr) : StrPtr :=
  Str.assemble (Str.disassemble p).1 (Str.disassemble p).2

/-- C1: for every shipped category (slices, str, WrapSized, derived
trait objects) and every (meta, address) pair, disassemble after
assemble returns exactly (meta, address). -/
theorem roundTrip_all_categories :
    (∀ len a : Nat, Slice.disassemble (Slice.assemble len a) = (len, a)) ∧
    (∀ len a : Nat, Str.disassemble (Str.assemble len a) = (len, a)) ∧
    (∀ (m : WrapSized.Meta) (a : Nat),
      WrapSized.disassemble (WrapSized.assemble m a) = (m, a)) ∧
    (∀ (v : Vtable) (a : Nat),
      DynTrait.disassemble (DynTrait.assemble v a) = (v, a)) :=
  ⟨fun _ _ => rfl, fun _ _ => rfl, fun _ _ => rfl, fun _ _ => rfl⟩

/-- C2, counterexample: the claim says size_of_val and align_of_val are
not available to a bare derived trait-object DynSized implementation;
in the source their only bound is DynSized, so both apply to the
derived implementation and here compute concrete values (reading the
size and alignment slots of a dispatch table from vtable memory). -/
theorem sizeQueries_bare_dyn_counterexample :
    size_of_val DynTrait.assemble
      (Host.sizeOfValDyn fun i => i + 5) ⟨10⟩ = 16 ∧
    align_of_val DynTrait.assemble
      (Host.alignOfValDyn fun i => i + 5) ⟨10⟩ = 17 :=
  ⟨rfl, rfl⟩

/-- C2, amended: size_of_val and align_of_val are exposed for every
DynSized implementation whatsoever, needing only its assemble and the
host primitive; in particular the derived trait-object (polymorphic
interface) implementation automatically receives the capability, the
host reading size and alignment from the dispatch table. -/
theorem sizeQueries_any_dynSized :
    (∀ (M H : Type) (asm : M → Nat → H) (host : H → Nat) (m : M),
      size_of_val asm host m = host (asm m nullAddr) ∧
      align_of_val asm host m = host (asm m nullAddr)) ∧
    (∀ (vmem : Nat → Nat) (v : Vtable),
      size_of_val DynTrait.assemble (Host.sizeOfValDyn vmem) v
        = vmem (v.ptr + 1) ∧
      align_of_val DynTrait.assemble (Host.alignOfValDyn vmem) v
        = vmem (v.ptr + 2)) :=
  ⟨fun _ _ _ _ _ => ⟨rfl, rfl⟩, fun _ _ => ⟨rfl, rfl⟩⟩

/-- C3: every shipped assemble combines bits only; run with any two
memories it produces the same handle, and that handle is the one the
pure assemble produces from the meta and address bits alone. -/
theorem assemble_memory_independent :
    (∀ (m1 m2 : Mem) (len a : Nat),
      sliceAssembleInMem m1 len a = sliceAssembleInMem m2 len a ∧
      sliceAssembleInMem m1 len a = Slice.assemble len a) ∧
    (∀ (m1 m2 : Mem) (len a : Nat),
      strAssembleInMem m1 len a = strAssembleInMem m2 len a ∧
      strAssembleInMem m1 len a = Str.assemble len a) ∧
    (∀ (m1 m2 : Mem) (u : WrapSized.Meta) (a : Nat),
      wrapAssembleInMem m1 u a = wrapAssembleInMem m2 u a ∧
      wrapAssembleInMem m1 u a = WrapSized.assemble u a) ∧
    (∀ (m1 m2 : Mem) (v : Vtable) (a : Nat),
      dynAssembleInMem m1 v a = dynAssembleInMem m2 v a ∧
      dynAssembleInMem m1 v a = DynTrait.assemble v a) :=
  ⟨fun _ _ _ _ => ⟨rfl, rfl⟩, fun _ _ _ _ => ⟨rfl, rfl⟩,
   fun _ _ _ _ => ⟨rfl, rfl⟩, fun _ _ _ _ => ⟨rfl, rfl⟩⟩

/-- C4: the handle assembled from element count N and address A has
meta N and data A, and reading element i through it (i < N) gives the
same value as reading element i directly at address A. -/
theorem slice_category_assemble (N A : Nat) (mem : Mem) (es i : Nat)
    (_h : i < N) :
    Slice.meta (Slice.assemble N A) = N ∧
    Slice.dataOf (Slice.assemble N A) = A ∧
    sliceRead mem es (Slice.assemble N A) i = readElem mem es A i :=
  ⟨rfl, rfl, rfl⟩

/-- C4 witness at N = 3, A = 100, identity memory, element size 1,
index 1. -/
theorem slice_category_assemble_witness :
    Slice.meta (Slice.assemble 3 100) = 3 ∧
    Slice.dataOf (Slice.assemble 3 100) = 100 ∧
    sliceRead (fun j => j) 1 (Slice.assemble 3 100) 1
      = readElem (fun j => j) 1 100 1 :=
  slice_category_assemble 3 100 (fun j => j) 1 1 (by decide)

/-- C5: the metadata disassemble returns for a str reference is the
byte length of the string (a quantity that can differ from the UTF-8
character count), and reassembling the returned pair yields a handle
whose loaded contents are byte-for-byte the original string. -/
theorem str_meta_is_byte_length (a : Nat) (s : List Nat) (mem : Mem)
    (h : storesBytes mem a s) :
    (Str.disassemble (strRefAt a s)).1 = s.length ∧
    (∃ t : List Nat, utf8CharCount t ≠ t.length) ∧
    loadBytes mem (Str.dataOf (strRoundTrip (strRefAt a s)))
      (Str.meta (strRoundTrip (strRefAt a s))) = s :=
  ⟨rfl, ⟨[195, 169], by decide⟩, loadBytes_of_storesBytes mem a s h⟩

/-- A concrete memory storing the two bytes of the text ok at address
100, used by the C5 witness. -/
def okMem : Mem :=
  fun i => if i = 100 then 111 else if i = 101 then 107 else 0

/-- C5 witness at address 100 with the two-byte string ok. -/
theorem str_meta_is_byte_length_witness :
    (Str.disassemble (strRefAt 100 [111, 107])).1 = [111, 107].length ∧
    (∃ t : List Nat, utf8CharCount t ≠ t.length) ∧
    loadBytes okMem (Str.dataOf (strRoundTrip (strRefAt 100 [111, 107])))
      (Str.meta (strRoundTrip (strRefAt 100 [111, 107]))) = [111, 107] :=
  str_meta_is_byte_length 100 [111, 107] okMem (by decide)

/-- C6: WrapSized metadata is the unit singleton, assemble returns the
address unchanged ignoring the metadata, and disassemble returns the
unit value with the unchanged address. -/
theorem wrapSized_identity :
    (∀ m : WrapSized.Meta, m = ()) ∧
    (∀ (m : WrapSized.Meta) (d : Nat), WrapSized.assemble m d = d) ∧
    (∀ p : Nat, WrapSized.disassemble p = ((), p)) :=
  ⟨fun _ => rfl, fun _ _ => rfl, fun _ => rfl⟩

/-- C7: for a wrapped Sized type of intrinsic size sizeT and alignment
alignT, size_of_val and align_of_val on WrapSized return sizeT and
alignT, the handle being built at the null address; in particular a
4-byte integer yields size 4. -/
theorem wrapSized_size_align :
    (∀ sizeT : Nat,
      size_of_val WrapSized.assemble (Host.sizeOfValWrap sizeT) () = sizeT) ∧
    (∀ alignT : Nat,
      align_of_val WrapSized.assemble (Host.alignOfValWrap alignT) ()
        = alignT) ∧
    size_of_val WrapSized.assemble (Host.sizeOfValWrap 4) () = 4 :=
  ⟨fun _ => rfl, fun _ => rfl, rfl⟩

/-- C8: the record built by TraitObject.construct from dispatch-table
word v and address a has data a and vtable v, and its layout is exactly
two machine words, address first and dispatch-table word second. -/
theorem traitObject_construct_layout :
    ∀ (v : Vtable) (a : Nat),
      (TraitObject.construct v a).dataOf = a ∧
      (TraitObject.construct v a).vtableOf = v ∧
      (TraitObject.construct v a).words = [a, v.ptr] ∧
      (TraitObject.construct v a).words.length = 2 :=
  fun _ _ => ⟨rfl, rfl, rfl, rfl⟩

/-- C9: for every DynSized implementation, the pointer extension
methods meta, data and data_mut on const and mut pointers return
exactly the corresponding components of disassemble and
disassemble_mut. -/
theorem ptrExt_forwards :
    ∀ (M H : Type) (i : DynSizedImpl M H) (p : H),
      ConstPtr.meta i p = (i.disassemble p).1 ∧
      ConstPtr.dataOf i p = (i.disassemble p).2 ∧
      MutPtr.meta i p = (i.disassemble p).1 ∧
      MutPtr.dataOf i p = (i.disassemble p).2 ∧
      MutPtr.data_mut i p = (i.disassemble_mut p).2 :=
  fun _ _ _ _ => ⟨rfl, rfl, rfl, rfl, rfl⟩

/-- C10: assemble is also a left inverse of disassemble; reassembling
the pair disassemble returns for any handle of a shipped category
yields that same handle. -/
theorem assemble_left_inverse :
    (∀ p : SlicePtr,
      Slice.assemble (Slice.disassemble p).1 (Slice.disassemble p).2 = p) ∧
    (∀ p : StrPtr,
      Str.assemble (Str.disassemble p).1 (Str.disassemble p).2 = p) ∧
    (∀ p : Nat,
      WrapSized.assemble (WrapSized.disassemble p).1
        (WrapSized.disassemble p).2 = p) ∧
    (∀ t : TraitObject,
      DynTrait.assemble (DynTrait.disassemble t).1
        (DynTrait.disassemble t).2 = t) :=
  ⟨fun _ => rfl, fun _ => rfl, fun _ => rfl, fun _ => rfl⟩
